import Mathlib

/-!
Verification of the bracket tax calculator in `src/COS.py`.

Numbers are modelled exactly as rationals (`ℚ`); the Python `float`
arithmetic is treated as exact real arithmetic, which is how the spec
states its concrete values. The filing status is a Python `int`,
modelled as `ℤ`; the dictionary lookup `brackets[filing_status]`, which
raises `KeyError` on an unknown status, is modelled as an
`Option`-valued lookup returning `none` there.
-/

namespace COS

/-- A bracket, as in the source: an `(upper_limit, rate)` pair where
`upper_limit = none` means no upper limit (infinity). -/
abbrev Bracket := Option ℚ × ℚ

/-- The bracket table defined inside `calculate_tax` (src/COS.py lines 17-54),
keyed by filing status: 0=Single, 1=Married Jointly, 2=Married Separately,
3=Head of Household. Lookup of any other key fails (`none`). -/
def brackets (filing_status : ℤ) : Option (List Bracket) :=
  if filing_status = 0 then
    some [(some 8350, 10/100), (some 33950, 15/100), (some 82250, 25/100),
          (some 171550, 28/100), (some 372950, 33/100), (none, 35/100)]
  else if filing_status = 1 then
    some [(some 16700, 10/100), (some 67900, 15/100), (some 137050, 25/100),
          (some 208850, 28/100), (some 372950, 33/100), (none, 35/100)]
  else if filing_status = 2 then
    some [(some 8350, 10/100), (some 33950, 15/100), (some 68525, 25/100),
          (some 104425, 28/100), (some 186475, 33/100), (none, 35/100)]
  else if filing_status = 3 then
    some [(some 11950, 10/100), (some 45500, 15/100), (some 117450, 25/100),
          (some 190200, 28/100), (some 372950, 33/100), (none, 35/100)]
  else none

/-- The `for upper_limit, rate in tax_brackets` loop of `calculate_tax`
(src/COS.py lines 59-77), with the running `previous_limit` and `tax`
as explicit parameters. A `break` is a return of the accumulator;
the `(none, rate)` case adds `(income - previous_limit) * rate` and
breaks, so the tail of the list is never visited there. -/
def taxLoop (income : ℚ) : List Bracket → ℚ → ℚ → ℚ
  | [], _, tax => tax
  | (none, rate) :: _, previous_limit, tax =>
    if income ≤ previous_limit then tax
    else tax + (income - previous_limit) * rate
  | (some u, rate) :: rest, previous_limit, tax =>
    if income ≤ previous_limit then tax
    else if income ≤ u then tax + (income - previous_limit) * rate
    else taxLoop income rest u (tax + (u - previous_limit) * rate)

/-- `calculate_tax` (src/COS.py lines 1-78): look up the bracket list for
the filing status (failing for an unknown status) and run the
progressive-taxation loop starting from `previous_limit = 0`, `tax = 0`. -/
def calculate_tax (filing_status : ℤ) (taxable_income : ℚ) : Option ℚ :=
  (brackets filing_status).map (fun bs => taxLoop taxable_income bs 0 0)

/-- The bracket table duplicated inside `main` for the breakdown display
(src/COS.py lines 129-134), again keyed by filing status with `KeyError`
modelled as `none`. -/
def brackets_main (status : ℤ) : Option (List Bracket) :=
  if status = 0 then
    some [(some 8350, 10/100), (some 33950, 15/100), (some 82250, 25/100),
          (some 171550, 28/100), (some 372950, 33/100), (none, 35/100)]
  else if status = 1 then
    some [(some 16700, 10/100), (some 67900, 15/100), (some 137050, 25/100),
          (some 208850, 28/100), (some 372950, 33/100), (none, 35/100)]
  else if status = 2 then
    some [(some 8350, 10/100), (some 33950, 15/100), (some 68525, 25/100),
          (some 104425, 28/100), (some 186475, 33/100), (none, 35/100)]
  else if status = 3 then
    some [(some 11950, 10/100), (some 45500, 15/100), (some 117450, 25/100),
          (some 190200, 28/100), (some 372950, 33/100), (none, 35/100)]
  else none

/-- The finite upper limits of a bracket list, in order. -/
def finiteLimits (bs : List Bracket) : List ℚ :=
  bs.filterMap Prod.fst

/-- A list of rationals is strictly increasing. -/
def strictIncr : List ℚ → Bool
  | [] => true
  | [_] => true
  | a :: b :: rest => decide (a < b) && strictIncr (b :: rest)

/-- A list of rationals is non-decreasing. -/
def nonDecr : List ℚ → Bool
  | [] => true
  | [_] => true
  | a :: b :: rest => decide (a ≤ b) && nonDecr (b :: rest)

/-- Every rate of a bracket list lies in the half-open interval (0, 1]. -/
def ratesInUnit (bs : List Bracket) : Bool :=
  bs.all fun p => decide (0 < p.2) && decide (p.2 ≤ 1)

/-- Exactly one entry of the bracket list has `upper_limit = none`,
and it is the last entry. -/
def noneLastOnly : List Bracket → Bool
  | [] => false
  | [(none, _)] => true
  | (some _, _) :: rest => noneLastOnly rest
  | (none, _) :: _ :: _ => false

/-- The table invariant of the spec, as one checker: finite upper limits
strictly increasing, rates non-decreasing, every rate in (0, 1], and a
single unbounded bracket placed last. -/
def tableInvariant (bs : List Bracket) : Bool :=
  strictIncr (finiteLimits bs) && nonDecr (bs.map Prod.snd) &&
    ratesInUnit bs && noneLastOnly bs

/-- The largest finite upper limit in a filing status's bracket list
(`0` for an unknown status, whose lookup fails). For the sorted tables of
the source this is the last finite boundary: 372950 for statuses 0, 1
and 3, and 186475 for status 2. -/
def topFiniteLimit (s : ℤ) : ℚ :=
  (finiteLimits ((brackets s).getD [])).foldl max 0

/-- The admissibility condition the loop lemmas need, threaded along the
list exactly as `previous_limit` is: every rate is non-negative and every
finite upper limit is at least the previous limit. -/
def chainOK : ℚ → List Bracket → Bool
  | _, [] => true
  | prev, (none, rate) :: rest => decide (0 ≤ rate) && chainOK prev rest
  | prev, (some u, rate) :: rest =>
    decide (0 ≤ rate) && decide (prev ≤ u) && chainOK u rest

/-- The loop never decreases the accumulator: under `chainOK`, the result
of `taxLoop` is at least the tax accumulated so far. -/
theorem taxLoop_ge_acc (income : ℚ) :
    ∀ (bs : List Bracket) (prev tax : ℚ), chainOK prev bs = true →
      tax ≤ taxLoop income bs prev tax := by
  intro bs
  induction bs with
  | nil => intro prev tax _; simp [taxLoop]
  | cons b rest ih =>
    intro prev tax h
    obtain ⟨ul, rate⟩ := b
    rcases ul with _ | u
    · simp only [chainOK, Bool.and_eq_true, decide_eq_true_eq] at h
      simp only [taxLoop]
      split_ifs <;> nlinarith [h.1]
    · simp only [chainOK, Bool.and_eq_true, decide_eq_true_eq] at h
      obtain ⟨⟨hrate, hpu⟩, hrest⟩ := h
      have hr := ih u (tax + (u - prev) * rate) hrest
      simp only [taxLoop]
      split_ifs <;> nlinarith

/-- The loop is monotone in the income: under `chainOK`, a larger income
never yields a smaller result, for any starting limit and accumulator. -/
theorem taxLoop_mono (x y : ℚ) (hxy : x ≤ y) :
    ∀ (bs : List Bracket) (prev tax : ℚ), chainOK prev bs = true →
      taxLoop x bs prev tax ≤ taxLoop y bs prev tax := by
  intro bs
  induction bs with
  | nil => intro prev tax _; simp [taxLoop]
  | cons b rest ih =>
    intro prev tax h
    obtain ⟨ul, rate⟩ := b
    rcases ul with _ | u
    · simp only [chainOK, Bool.and_eq_true, decide_eq_true_eq] at h
      simp only [taxLoop]
      split_ifs <;> nlinarith [h.1]
    · simp only [chainOK, Bool.and_eq_true, decide_eq_true_eq] at h
      obtain ⟨⟨hrate, hpu⟩, hrest⟩ := h
      have hge := taxLoop_ge_acc y rest u (tax + (u - prev) * rate) hrest
      have hih := ih u (tax + (u - prev) * rate) hrest
      simp only [taxLoop]
      split_ifs <;> nlinarith

/-- Claim C1: for filing status Single (variant 0), `calculate_tax`
returns the spec's concrete values: 835.00 at income 8350, 1082.50
(that is, 8350·0.10 + 1650·0.15) at income 10000, and the full
bracket-by-bracket sum at income 400000. -/
theorem c1_single_concrete_values :
    calculate_tax 0 8350 = some 835 ∧
    calculate_tax 0 10000 = some (8350 * (10/100) + 1650 * (15/100)) ∧
    calculate_tax 0 10000 = some 1082.5 ∧
    calculate_tax 0 400000 = some
      (8350 * (10/100) + (33950 - 8350) * (15/100) + (82250 - 33950) * (25/100) +
        (171550 - 82250) * (28/100) + (372950 - 171550) * (33/100) +
        (400000 - 372950) * (35/100)) := by
  refine ⟨?_, ?_, ?_, ?_⟩ <;> norm_num [calculate_tax, brackets, taxLoop]

/-- Claim C2: for each valid filing status and incomes `0 ≤ x ≤ y`, the
computed tax at `x` is at most the computed tax at `y`: for fixed status
the result is monotonically non-decreasing in the income. -/
theorem c2_tax_monotone (s : ℤ) (hs : s = 0 ∨ s = 1 ∨ s = 2 ∨ s = 3)
    (x y : ℚ) (hx : 0 ≤ x) (hxy : x ≤ y) (tx ty : ℚ)
    (hcx : calculate_tax s x = some tx) (hcy : calculate_tax s y = some ty) :
    tx ≤ ty := by
  rcases hs with rfl | rfl | rfl | rfl <;>
  · simp only [calculate_tax, brackets] at hcx hcy
    norm_num at hcx hcy
    subst hcx; subst hcy
    exact taxLoop_mono x y hxy _ 0 0
      (by simp only [chainOK, Bool.and_eq_true, decide_eq_true_eq]; norm_num)

/-- Witness for C2 at status 0, incomes 1 and 2. -/
theorem c2_tax_monotone_witness : (1/10 : ℚ) ≤ 1/5 :=
  c2_tax_monotone 0 (Or.inl rfl) 1 2 (by norm_num) (by norm_num) (1/10) (1/5)
    (by norm_num [calculate_tax, brackets, taxLoop])
    (by norm_num [calculate_tax, brackets, taxLoop])

/-- Claim C3: for each valid filing status and each finite bracket
boundary, the tax at exactly that boundary is the sum of
`(boundary_i - boundary_(i-1)) * rate_i` over the brackets up to and
including it, with boundary_0 = 0: the boundary value itself is taxed
entirely within the lower bracket. -/
theorem c3_boundary_values :
    (calculate_tax 0 8350 = some ((8350 - 0) * (10/100)) ∧
     calculate_tax 0 33950 =
       some ((8350 - 0) * (10/100) + (33950 - 8350) * (15/100)) ∧
     calculate_tax 0 82250 =
       some ((8350 - 0) * (10/100) + (33950 - 8350) * (15/100) +
         (82250 - 33950) * (25/100)) ∧
     calculate_tax 0 171550 =
       some ((8350 - 0) * (10/100) + (33950 - 8350) * (15/100) +
         (82250 - 33950) * (25/100) + (171550 - 82250) * (28/100)) ∧
     calculate_tax 0 372950 =
       some ((8350 - 0) * (10/100) + (33950 - 8350) * (15/100) +
         (82250 - 33950) * (25/100) + (171550 - 82250) * (28/100) +
         (372950 - 171550) * (33/100))) ∧
    (calculate_tax 1 16700 = some ((16700 - 0) * (10/100)) ∧
     calculate_tax 1 67900 =
       some ((16700 - 0) * (10/100) + (67900 - 16700) * (15/100)) ∧
     calculate_tax 1 137050 =
       some ((16700 - 0) * (10/100) + (67900 - 16700) * (15/100) +
         (137050 - 67900) * (25/100)) ∧
     calculate_tax 1 208850 =
       some ((16700 - 0) * (10/100) + (67900 - 16700) * (15/100) +
         (137050 - 67900) * (25/100) + (208850 - 137050) * (28/100)) ∧
     calculate_tax 1 372950 =
       some ((16700 - 0) * (10/100) + (67900 - 16700) * (15/100) +
         (137050 - 67900) * (25/100) + (208850 - 137050) * (28/100) +
         (372950 - 208850) * (33/100))) ∧
    (calculate_tax 2 8350 = some ((8350 - 0) * (10/100)) ∧
     calculate_tax 2 33950 =
       some ((8350 - 0) * (10/100) + (33950 - 8350) * (15/100)) ∧
     calculate_tax 2 68525 =
       some ((8350 - 0) * (10/100) + (33950 - 8350) * (15/100) +
         (68525 - 33950) * (25/100)) ∧
     calculate_tax 2 104425 =
       some ((8350 - 0) * (10/100) + (33950 - 8350) * (15/100) +
         (68525 - 33950) * (25/100) + (104425 - 68525) * (28/100)) ∧
     calculate_tax 2 186475 =
       some ((8350 - 0) * (10/100) + (33950 - 8350) * (15/100) +
         (68525 - 33950) * (25/100) + (104425 - 68525) * (28/100) +
         (186475 - 104425) * (33/100))) ∧
    (calculate_tax 3 11950 = some ((11950 - 0) * (10/100)) ∧
     calculate_tax 3 45500 =
       some ((11950 - 0) * (10/100) + (45500 - 11950) * (15/100)) ∧
     calculate_tax 3 117450 =
       some ((11950 - 0) * (10/100) + (45500 - 11950) * (15/100) +
         (117450 - 45500) * (25/100)) ∧
     calculate_tax 3 190200 =
       some ((11950 - 0) * (10/100) + (45500 - 11950) * (15/100) +
         (117450 - 45500) * (25/100) + (190200 - 117450) * (28/100)) ∧
     calculate_tax 3 372950 =
       some ((11950 - 0) * (10/100) + (45500 - 11950) * (15/100) +
         (117450 - 45500) * (25/100) + (190200 - 117450) * (28/100) +
         (372950 - 190200) * (33/100))) := by
  refine ⟨⟨?_, ?_, ?_, ?_, ?_⟩, ⟨?_, ?_, ?_, ?_, ?_⟩,
    ⟨?_, ?_, ?_, ?_, ?_⟩, ⟨?_, ?_, ?_, ?_, ?_⟩⟩ <;>
    norm_num [calculate_tax, brackets, taxLoop]

/-- Claim C4: for each valid filing status, the tax at income 0 is
exactly 0. -/
theorem c4_zero_income_zero_tax :
    calculate_tax 0 0 = some 0 ∧ calculate_tax 1 0 = some 0 ∧
    calculate_tax 2 0 = some 0 ∧ calculate_tax 3 0 = some 0 := by
  refine ⟨?_, ?_, ?_, ?_⟩ <;> norm_num [calculate_tax, brackets, taxLoop]

/-- Claim C5: for a filing status outside the four defined variants the
calculation fails (the bracket lookup finds no entry, modelled as
`none`); it never defaults to some bracket table or returns a number. -/
theorem c5_unknown_status_fails (s : ℤ)
    (h0 : s ≠ 0) (h1 : s ≠ 1) (h2 : s ≠ 2) (h3 : s ≠ 3) (income : ℚ) :
    calculate_tax s income = none := by
  simp [calculate_tax, brackets, h0, h1, h2, h3]

/-- Witness for C5 at status 4, income 100. -/
theorem c5_unknown_status_fails_witness : calculate_tax 4 100 = none :=
  c5_unknown_status_fails 4 (by norm_num) (by norm_num) (by norm_num)
    (by norm_num) 100

/-- Claim C6: for each valid filing status and income strictly above
the highest finite bracket boundary, the tax is the tax at that boundary
plus the excess times the top rate 0.35: only the excess is taxed at
the top rate. -/
theorem c6_excess_taxed_at_top_rate (s : ℤ)
    (hs : s = 0 ∨ s = 1 ∨ s = 2 ∨ s = 3)
    (x : ℚ) (hx : topFiniteLimit s < x) :
    calculate_tax s x =
      (calculate_tax s (topFiniteLimit s)).map
        (fun t => t + (x - topFiniteLimit s) * (35/100)) := by
  rcases hs with rfl | rfl | rfl | rfl <;>
  · norm_num [topFiniteLimit, finiteLimits, brackets, List.foldl, max_def] at hx ⊢
    norm_num [calculate_tax, brackets, taxLoop]
    split_ifs <;> linarith

/-- Witness for C6 at status 0, income 400000 (top boundary 372950). -/
theorem c6_excess_taxed_at_top_rate_witness :
    calculate_tax 0 400000 =
      (calculate_tax 0 (topFiniteLimit 0)).map
        (fun t => t + (400000 - topFiniteLimit 0) * (35/100)) :=
  c6_excess_taxed_at_top_rate 0 (Or.inl rfl) 400000
    (by norm_num [topFiniteLimit, finiteLimits, brackets, List.foldl, max_def])

/-- Claim C7: for each valid filing status and non-negative income,
the computed tax is non-negative. -/
theorem c7_tax_nonneg (s : ℤ) (hs : s = 0 ∨ s = 1 ∨ s = 2 ∨ s = 3)
    (x : ℚ) (hx : 0 ≤ x) (t : ℚ) (ht : calculate_tax s x = some t) :
    0 ≤ t := by
  rcases hs with rfl | rfl | rfl | rfl <;>
  · simp only [calculate_tax, brackets] at ht
    norm_num at ht
    subst ht
    exact taxLoop_ge_acc x _ 0 0
      (by simp only [chainOK, Bool.and_eq_true, decide_eq_true_eq]; norm_num)

/-- Witness for C7 at status 0, income 1. -/
theorem c7_tax_nonneg_witness : (0 : ℚ) ≤ 1/10 :=
  c7_tax_nonneg 0 (Or.inl rfl) 1 (by norm_num) (1/10)
    (by norm_num [calculate_tax, brackets, taxLoop])

/-- Claim C8: each of the four bracket lists of the constant table
satisfies the table invariant: strictly increasing finite upper limits,
non-decreasing rates, every rate in (0, 1], and exactly one `none`
upper limit, placed last. -/
theorem c8_table_invariants :
    (brackets 0).map tableInvariant = some true ∧
    (brackets 1).map tableInvariant = some true ∧
    (brackets 2).map tableInvariant = some true ∧
    (brackets 3).map tableInvariant = some true := by
  refine ⟨?_, ?_, ?_, ?_⟩ <;>
    norm_num [brackets, tableInvariant, finiteLimits, strictIncr, nonDecr,
      ratesInUnit, noneLastOnly, List.filterMap, List.all, decide_eq_true_eq]

/-- Claim C9: the bracket table inside `calculate_tax` and the table
duplicated inside `main` for the breakdown display are equal as
mappings from filing status to the ordered bracket list. -/
theorem c9_tables_equal : ∀ s : ℤ, brackets s = brackets_main s :=
  fun _ => rfl

/-- Claim C10: for each valid filing status and negative income,
`calculate_tax` returns 0: the first loop iteration breaks immediately
because `income ≤ previous_limit = 0`. -/
theorem c10_negative_income_zero_tax (s : ℤ)
    (hs : s = 0 ∨ s = 1 ∨ s = 2 ∨ s = 3) (x : ℚ) (hx : x < 0) :
    calculate_tax s x = some 0 := by
  rcases hs with rfl | rfl | rfl | rfl <;>
    simp [calculate_tax, brackets, taxLoop, hx.le]

/-- Witness for C10 at status 0, income -1. -/
theorem c10_negative_income_zero_tax_witness :
    calculate_tax 0 (-1) = some 0 :=
  c10_negative_income_zero_tax 0 (Or.inl rfl) (-1) (by norm_num)

end COS
